import Mathlib

/-!
Verification of the `toolbox` repository against its specification.

The repository has two surfaces:
- numeric helpers (`toolbox/sci.py`, `toolbox/chebfun.py`): a coordinate
  transform context manager, a Chebyshev grid generator and differentiation
  matrices;
- decorator utilities (`toolbox/decorators/*.py`): a retry wrapper, a runtime
  type guard and a call-site multiple dispatch object.

Real/complex numpy arrays are embedded as lists or `Fin N → ℝ` functions over
the exact fields ℝ and ℂ (idealised arithmetic).  Python exceptions are
embedded as explicit result constructors, and each stateful wrapper is given
as an explicit state-passing function translated line by line from the
source.
-/

namespace Toolbox

/-! ## toolbox/sci.py : rel_coords -/

/-- Rotation factor `np.exp(1j * angle)` used by `rel_coords`. -/
noncomputable def rotation (angle : ℝ) : ℂ :=
  Complex.exp (Complex.I * angle)

/-- Entry mutation of `rel_coords`, applied elementwise to the array:
`coords -= origin` followed by `coords /= rotation`. -/
noncomputable def relEnter (origin : ℂ) (angle : ℝ) (c : ℂ) : ℂ :=
  (c - origin) / rotation angle

/-- Mutation performed by the `finally` block of `rel_coords`, applied
elementwise: `coords *= rotation` followed by `coords += origin`. -/
noncomputable def relExit (origin : ℂ) (angle : ℝ) (c : ℂ) : ℂ :=
  c * rotation angle + origin

/-- Model of the `rel_coords` context manager from `toolbox/sci.py`.  The
array `coords` is mutated in place on entry (subtract `origin`, divide by the
rotation); the managed body then runs and either completes or raises
(`bodyRaises`); the `finally` block runs in both cases and applies the inverse
mutation.  The result is the final contents of `coords` together with the
flag telling whether the body's exception propagates out of the block. -/
noncomputable def rel_coords (coords : List ℂ) (origin : ℂ) (angle : ℝ)
    (bodyRaises : Bool) : List ℂ × Bool :=
  ((coords.map (relEnter origin angle)).map (relExit origin angle), bodyRaises)

/-! ## toolbox/chebfun.py : chebspace -/

/-- Model of `np.linspace(start, stop, num)` (endpoint mode, the default):
`num` evenly spaced samples, the i-th being `start + (stop - start) * i /
(num - 1)`. -/
noncomputable def linspace (start stop : ℝ) (num : ℕ) : List ℝ :=
  (List.range num).map
    (fun i : ℕ => start + (stop - start) * (i : ℝ) / ((num : ℝ) - 1))

/-- Model of `chebspace(a, b, n)` from `toolbox/chebfun.py`:
`theta = np.linspace(pi, 0, n)`, `grid = np.cos(theta)`, and the returned
array is `(b + a) / 2 + (b - a) / 2 * grid`. -/
noncomputable def chebspace (a b : ℝ) (n : ℕ) : List ℝ :=
  ((linspace Real.pi 0 n).map Real.cos).map
    (fun g => (b + a) / 2 + (b - a) / 2 * g)

/-! ## toolbox/chebfun.py : differentiation matrices -/

/-- Coefficient vector of `_D_op`: `c_i = np.ones_like(i); c_i[0] = c_i[-1] = 2;
c_i = c_i * (-1) ** i`, read at row `r` of a grid of size `N`. -/
noncomputable def c_coef (N r : ℕ) : ℝ :=
  (if r = 0 ∨ r = N - 1 then 2 else 1) * (-1) ^ r

/-- Matrix `D1 = (c_i) @ (1 / c_i.T) / (dx + identity)` of `_D_op`, before the
in-place diagonal update, where `dx[r, c] = x[c] - x[r]`. -/
noncomputable def D1pre (N : ℕ) (x : Fin N → ℝ) : Matrix (Fin N) (Fin N) ℝ :=
  fun r c =>
    c_coef N r.val * (1 / c_coef N c.val) / ((x c - x r) + (if r = c then 1 else 0))

/-- Model of `_D_op(x_i)` from `toolbox/chebfun.py`: the matrix `D1pre` after
the in-place update `D1[i, i] -= D1.sum(axis=1)` (each diagonal entry has its
row sum subtracted from it). -/
noncomputable def _D_op (N : ℕ) (x : Fin N → ℝ) : Matrix (Fin N) (Fin N) ℝ :=
  fun r c => if r = c then D1pre N x r r - ∑ j, D1pre N x r j else D1pre N x r c

/-- Model of `D_op(x_i, k)` from `toolbox/chebfun.py`: `np.eye(N)` for
`k = 0`, otherwise `D = D1.copy()` followed by `k - 1` in-place products
`D @= D1` (the pint unit handling is the identity on plain arrays). -/
noncomputable def D_op (N : ℕ) (x : Fin N → ℝ) (k : ℕ) : Matrix (Fin N) (Fin N) ℝ :=
  if k = 0 then 1
  else (List.range (k - 1)).foldl (fun D _ => D * _D_op N x) (_D_op N x)

/-- Model of `derivative(y_i, x_i, k)` from `toolbox/chebfun.py`:
`D_op(x_i, k) @ y_i`. -/
noncomputable def derivative (N : ℕ) (y x : Fin N → ℝ) (k : ℕ) : Fin N → ℝ :=
  (D_op N x k).mulVec y

/-- Concrete two-point grid used by witness instantiations. -/
noncomputable def gridTwo : Fin 2 → ℝ := ![0, 1]

/-! ## toolbox/decorators/other.py : retry -/

/-- Outcome of one call to the wrapped function: it returns a value or it
raises an exception. -/
inductive Outcome (T E : Type) where
  | ok (v : T)
  | err (e : E)
deriving DecidableEq

/-- Result of running the `retry` wrapper: a normal return, a
`RuntimeError` raised `from e` after all attempts failed (`wrapped`, whose
argument is the `__cause__`), or an exception propagating unwrapped
(`raised`). -/
inductive RunResult (T E : Type) where
  | ok (v : T)
  | wrapped (cause : E)
  | raised (e : E)
deriving DecidableEq

/-- Loop of the `retry` wrapper from `toolbox/decorators/other.py`.  The
wrapped function's behaviour is `f : ℕ → Outcome`, giving the outcome of its
i-th call; `caught e` tells whether `e` is an instance of the `exceptions`
tuple.  The first argument counts the loop iterations still to run (Python's
`for attempt in range(max_retries + 1)`), the second is the current attempt
index, which also counts the calls made so far.  When the loop runs out, the
trailing `return func(*args, **kwargs)` after the loop executes, outside any
`try`.  The result is paired with the total number of calls made. -/
def retryLoop {T E : Type} (f : ℕ → Outcome T E) (caught : E → Bool)
    (max_retries : ℤ) : ℕ → ℕ → RunResult T E × ℕ
  | 0, attempt =>
      match f attempt with
      | Outcome.ok v => (RunResult.ok v, attempt + 1)
      | Outcome.err e => (RunResult.raised e, attempt + 1)
  | m + 1, attempt =>
      match f attempt with
      | Outcome.ok v => (RunResult.ok v, attempt + 1)
      | Outcome.err e =>
          if caught e then
            if (attempt : ℤ) = max_retries then (RunResult.wrapped e, attempt + 1)
            else retryLoop f caught max_retries m (attempt + 1)
          else (RunResult.raised e, attempt + 1)

/-- Model of the `retry` wrapper: run the loop for `max_retries + 1`
iterations starting at attempt 0 (an empty loop when `max_retries + 1 ≤ 0`,
as with Python's `range`). -/
def retry {T E : Type} (f : ℕ → Outcome T E) (caught : E → Bool)
    (max_retries : ℤ) : RunResult T E × ℕ :=
  retryLoop f caught max_retries (max_retries + 1).toNat 0

/-! ## toolbox/decorators/typechecking.py

Python runtime values are abstracted to their runtime type, a natural
number identifying the class (`check_type` only ever inspects `type(arg)`).
Parameters are the positional-or-keyword kind (`int(fparam.kind) == 1`), and
calls supply positional arguments, which `Signature.bind_partial` binds to
the leading parameters, raising a plain `TypeError` when there are more
arguments than parameters. -/

/-- An entry of an expected-types collection: a class with identity `t`,
`typing.Any`, or the empty annotation sentinel `inspect._empty`. -/
inductive PyTy where
  | cls (t : ℕ)
  | any
  | empty
deriving DecidableEq, BEq

/-- Expected type argument of `check_type`: a single class (the
`isinstance(expected_type, type)` branch) or a tuple / union of entries (the
branch reading `__args__` or iterating the tuple). -/
inductive TypeAnn where
  | single (e : PyTy)
  | multi (es : List PyTy)
deriving DecidableEq, BEq

/-- Test `expected in (actual, Any, _empty)` from the loop of `check_type`. -/
def pymatches (e : PyTy) (actual : ℕ) : Bool :=
  match e with
  | PyTy.cls t => t == actual
  | PyTy.any => true
  | PyTy.empty => true

/-- Printed form of a runtime class, as it appears in error messages. -/
def showTy (t : ℕ) : String :=
  "<class " ++ toString t ++ ">"

/-- Printed form of an expected-types entry. -/
def showPyTy : PyTy → String
  | PyTy.cls t => showTy t
  | PyTy.any => "typing.Any"
  | PyTy.empty => "<class inspect._empty>"

/-- Printed form of a tuple of expected entries. -/
def showPyTyList (es : List PyTy) : String :=
  "(" ++ String.intercalate ", " (es.map showPyTy) ++ ")"

/-- Model of `check_type(arg, expected_type, label)`: succeeds when some
expected entry equals `type(arg)`, `Any` or `_empty`; otherwise produces the
`TypeCheckError` message naming the label and the expected type(s). -/
def check_type (actual : ℕ) (expected : TypeAnn) (label : String) :
    Except String Unit :=
  match expected with
  | TypeAnn.single e =>
      if pymatches e actual then Except.ok ()
      else Except.error ("Argument " ++ label ++ " has type " ++ showTy actual
        ++ " and not " ++ showPyTy e)
  | TypeAnn.multi es =>
      if es.any (fun e => pymatches e actual) then Except.ok ()
      else Except.error ("Type " ++ showTy actual ++ " of argument " ++ label
        ++ " is not in " ++ showPyTyList es)

/-- A function parameter: its name and its annotation (`TypeAnn.single
PyTy.empty` models an unannotated parameter, whose `fparam.annotation` is
`_empty`). -/
structure Param where
  name : String
  ann : TypeAnn
deriving DecidableEq

/-- Expected type used for the i-th bound argument in `check_call`: the
binding of `targs` if it covers position i, else the parameter's annotation
when `use` (the `use_annotations` flag) is set, else `_empty`. -/
def effExpected (params : List Param) (targs : List TypeAnn) (use : Bool)
    (i : ℕ) : TypeAnn :=
  match targs.get? i with
  | some t => t
  | none =>
      match params.get? i with
      | some p => if use then p.ann else TypeAnn.single PyTy.empty
      | none => TypeAnn.single PyTy.empty

/-- Failure messages collected by the loop of `check_call`, one per bound
argument whose `check_type` raises. -/
def checkFailures (params : List Param) (fargs : List ℕ) (targs : List TypeAnn)
    (use : Bool) : List String :=
  (List.range fargs.length).filterMap fun i =>
    match fargs.get? i, params.get? i with
    | some a, some p =>
        match check_type a (effExpected params targs use i) p.name with
        | Except.ok _ => none
        | Except.error m => some m
    | _, _ => none

/-- A failed check: a plain `TypeError` raised by `Signature.bind_partial`
(`bindErr`), or a `TypeCheckError` — the repository's `TypeError` subclass —
raised by the type-checking loop (`typeCheckErr`). -/
inductive CheckErr where
  | bindErr (msg : String)
  | typeCheckErr (msg : String)
deriving DecidableEq, BEq

/-- Model of `check_call(func, fargs, fkwargs, targs, tkwargs, check_types,
use_annotations)` on positional arguments: bind `fargs` (error when too many),
return when `check_types` is false, bind `targs`, then collect the per-argument
failures and raise the aggregated `TypeCheckError` when any exist. -/
def check_call (params : List Param) (fargs : List ℕ) (targs : List TypeAnn)
    (check_types : Bool) (use : Bool) : Except CheckErr Unit :=
  if params.length < fargs.length then
    Except.error (CheckErr.bindErr "too many positional arguments")
  else if check_types = false then Except.ok ()
  else if params.length < targs.length then
    Except.error (CheckErr.bindErr "too many positional arguments")
  else
    let failures := checkFailures params fargs targs use
    if failures.isEmpty then Except.ok ()
    else
      Except.error (CheckErr.typeCheckErr (String.intercalate "\n"
        ("Function arguments did not match expected types" :: failures)))

/-- Model of a function wrapped by the `typeguard` decorator factory with
explicit positional expected types `targs`: the wrapper runs
`check_call(func, fargs, fkwargs, targs, tkwargs)` first and only on success
runs the wrapped function's body on the arguments. -/
def typeguard (params : List Param) (body : List ℕ → ℕ) (targs : List TypeAnn)
    (fargs : List ℕ) : Except CheckErr ℕ :=
  match check_call params fargs targs true true with
  | Except.error e => Except.error e
  | Except.ok _ => Except.ok (body fargs)

/-- A registered implementation in a `multipledispatch` registry: its
signature and its body. -/
structure Impl where
  params : List Param
  body : List ℕ → ℕ

/-- Result of `multipledispatch.dispatcher`: the selected implementation with
the failure messages collected so far, the `NotImplemented` marker with all
failure messages, or a plain `TypeError` escaping the scan (only
`TypeCheckError` is caught by the loop). -/
inductive DispatchResult where
  | found (impl : Impl) (failures : List String)
  | notImpl (failures : List String)
  | bindAbort (msg : String)

/-- Scan loop of `multipledispatch.dispatcher` over `self.registry[::-1]`:
`n` is the enumeration counter and `total` is `len(self)`, used for the
failure labels `Implementation {len(self) - n}: …`. -/
def dispatchGo (typecheck : Bool) (fargs : List ℕ) (total : ℕ) :
    List Impl → ℕ → List String → DispatchResult
  | [], _, failures => DispatchResult.notImpl failures
  | impl :: rest, n, failures =>
      match check_call impl.params fargs [] typecheck true with
      | Except.ok _ => DispatchResult.found impl failures
      | Except.error (CheckErr.typeCheckErr m) =>
          dispatchGo typecheck fargs total rest (n + 1)
            (failures ++ ["Implementation " ++ toString (total - n) ++ ": " ++ m])
      | Except.error (CheckErr.bindErr m) => DispatchResult.bindAbort m

/-- Model of `multipledispatch.dispatcher(*fargs)` for an unbound dispatch
object (`_instance` and `_owner` are `None`): scan the reversed registry,
starting from the header failure line. -/
def dispatcher (registry : List Impl) (typecheck : Bool) (fargs : List ℕ) :
    DispatchResult :=
  dispatchGo typecheck fargs registry.length registry.reverse 0
    ["No implementation found for the supplied arguments"]

/-- Result of `multipledispatch.__call__`: a value, a `NotImplementedError`
joining the failure messages, a plain `TypeError` from a binding failure
inside the scan, or the `IndexError` which `fargs[0]` raises on a call with
no positional arguments. -/
inductive CallResult where
  | value (v : ℕ)
  | notImplErr (msg : String)
  | typeErr (msg : String)
  | indexErr
deriving DecidableEq, BEq

/-- Model of `multipledispatch.__call__(*fargs)` on a dispatch object whose
registered arguments are non-callable values: `fargs[0]` raises `IndexError`
on an empty call; otherwise the dispatcher picks the implementation and the
call runs its body, or `NotImplementedError` joins the failures, or the
binding `TypeError` propagates. -/
def md_call (registry : List Impl) (typecheck : Bool) (fargs : List ℕ) :
    CallResult :=
  match fargs with
  | [] => CallResult.indexErr
  | _ :: _ =>
      match dispatcher registry typecheck fargs with
      | DispatchResult.found impl _ => CallResult.value (impl.body fargs)
      | DispatchResult.notImpl failures =>
          CallResult.notImplErr (String.intercalate "\n" failures)
      | DispatchResult.bindAbort m => CallResult.typeErr m

/-- One-parameter implementation used by the C2 failing-input evaluation. -/
def implOneParam : Impl :=
  ⟨[⟨"x", TypeAnn.single PyTy.empty⟩], fun _ => 0⟩

/-- Implementations used by the C9 counterexample and witness: `implA` and
`implB` both accept a single argument of class 0; `implC` takes no
parameters, so binding one argument to it raises a plain `TypeError`. -/
def implA : Impl := ⟨[⟨"x", TypeAnn.single (PyTy.cls 0)⟩], fun _ => 10⟩

/-- Second single-parameter implementation, registered after `implA`. -/
def implB : Impl := ⟨[⟨"x", TypeAnn.single (PyTy.cls 0)⟩], fun _ => 20⟩

/-- Zero-parameter implementation whose binding fails on any argument. -/
def implC : Impl := ⟨[], fun _ => 30⟩

/-! ## Theorems for claim C1 -/

/-- Round trip of the two elementwise mutations of `rel_coords`. -/
theorem relExit_relEnter (origin : ℂ) (angle : ℝ) (c : ℂ) :
    relExit origin angle (relEnter origin angle c) = c := by
  unfold relExit relEnter rotation
  rw [div_mul_cancel₀ _ (Complex.exp_ne_zero (Complex.I * angle))]
  exact sub_add_cancel c origin

/-- C1: for every caller-supplied complex array `coords`, origin and angle,
the `rel_coords` context manager restores `coords` to its original contents
on exit, whether the managed body completes normally or raises: the final
array equals the array before entry, and the body's exception (if any)
propagates unchanged. -/
theorem rel_coords_restores (coords : List ℂ) (origin : ℂ) (angle : ℝ)
    (bodyRaises : Bool) :
    (rel_coords coords origin angle bodyRaises).1 = coords ∧
    (rel_coords coords origin angle bodyRaises).2 = bodyRaises := by
  refine ⟨?_, rfl⟩
  unfold rel_coords
  simp only [List.map_map]
  calc coords.map (relExit origin angle ∘ relEnter origin angle)
      = coords.map id := List.map_congr_left (fun c _ => relExit_relEnter origin angle c)
    _ = coords := List.map_id coords

/-! ## Theorems for claim C6 -/

/-- Element formula for `chebspace`: the i-th grid point is the cosine-spaced
value at the i-th angle. -/
theorem chebspace_getElem? (a b : ℝ) (n i : ℕ) (h : i < n) :
    (chebspace a b n)[i]?
      = some ((b + a) / 2
          + (b - a) / 2
            * Real.cos (Real.pi + (0 - Real.pi) * i / ((n : ℝ) - 1))) := by
  unfold chebspace linspace
  rw [List.getElem?_map, List.getElem?_map, List.getElem?_map,
    List.getElem?_range h]
  rfl

/-- C6: for every `a ≤ b` and every `n ≥ 2`, `chebspace a b n` has length
`n`, its first element is `a`, its last element is `b`, every element lies in
`[a, b]`, and the grid is the image of the `n` evenly spaced angles
`linspace π 0 n` under `θ ↦ (b+a)/2 + (b-a)/2 * cos θ`. -/
theorem chebspace_spec (a b : ℝ) (n : ℕ) (hab : a ≤ b) (hn : 2 ≤ n) :
    (chebspace a b n).length = n ∧
    (chebspace a b n)[0]? = some a ∧
    (chebspace a b n)[n - 1]? = some b ∧
    (∀ x ∈ chebspace a b n, a ≤ x ∧ x ≤ b) ∧
    chebspace a b n
      = (linspace Real.pi 0 n).map
          (fun θ => (b + a) / 2 + (b - a) / 2 * Real.cos θ) := by
  have hn1 : (1 : ℕ) ≤ n := le_trans (by omega) hn
  have h2n : (2 : ℝ) ≤ (n : ℝ) := by exact_mod_cast hn
  have hne : ((n : ℝ) - 1) ≠ 0 := by intro h; linarith
  refine ⟨?_, ?_, ?_, ?_, ?_⟩
  · simp only [chebspace, linspace, List.length_map, List.length_range]
  · rw [chebspace_getElem? a b n 0 (by omega)]
    have hθ : Real.pi + (0 - Real.pi) * ((0 : ℕ) : ℝ) / ((n : ℝ) - 1)
        = Real.pi := by
      simp
    rw [hθ, Real.cos_pi]
    norm_num
    ring
  · rw [chebspace_getElem? a b n (n - 1) (by omega)]
    have hcast : ((n - 1 : ℕ) : ℝ) = (n : ℝ) - 1 := by
      push_cast [Nat.cast_sub hn1]
      ring
    have hθ : Real.pi + (0 - Real.pi) * ((n : ℝ) - 1) / ((n : ℝ) - 1) = 0 := by
      field_simp
    rw [hcast, hθ, Real.cos_zero]
    norm_num
    ring
  · intro x hx
    simp only [chebspace, List.mem_map] at hx
    obtain ⟨g, ⟨θ, hθmem, rfl⟩, rfl⟩ := hx
    have h1 := Real.neg_one_le_cos θ
    have h2 := Real.cos_le_one θ
    constructor <;> nlinarith
  · simp [chebspace, List.map_map]

/-- Witness for C6 at `a = 0`, `b = 1`, `n = 2`: the grid has length 2. -/
theorem chebspace_spec_witness : (chebspace 0 1 2).length = 2 :=
  (chebspace_spec 0 1 2 (by norm_num) (by omega)).1

/-! ## Theorems for claims C7 and C8 -/

/-- The two points of `gridTwo` are distinct. -/
theorem gridTwo_distinct : ∀ i j : Fin 2, i ≠ j → gridTwo i ≠ gridTwo j := by
  intro i j hij
  fin_cases i <;> fin_cases j <;> simp_all [gridTwo]

/-- The accumulation loop `for _ in range(m): D @= D1` starting from `D1`
computes the `(m+1)`-th matrix power. -/
theorem foldl_mul_pow {n : ℕ} (A : Matrix (Fin n) (Fin n) ℝ) (m : ℕ) :
    (List.range m).foldl (fun D _ => D * A) A = A ^ (m + 1) := by
  induction m with
  | zero => simp
  | succ m ih =>
      rw [List.range_succ, List.foldl_append, List.foldl_cons, List.foldl_nil,
        ih]
      exact (pow_succ A (m + 1)).symm

/-- For `k = 1` the loop body never runs and `D_op` returns `_D_op`. -/
theorem D_op_one (N : ℕ) (x : Fin N → ℝ) : D_op N x 1 = _D_op N x := by
  simp [D_op]

/-- C7: for every one-dimensional grid with distinct points and every
`k ≥ 1`, the k-th differentiation matrix is the k-fold matrix power of the
first-derivative matrix. -/
theorem D_op_pow (N : ℕ) (x : Fin N → ℝ) (k : ℕ)
    (hx : ∀ i j : Fin N, i ≠ j → x i ≠ x j) (hk : 1 ≤ k) :
    D_op N x k = (D_op N x 1) ^ k := by
  obtain ⟨m, rfl⟩ : ∃ m, k = m + 1 := ⟨k - 1, by omega⟩
  rw [D_op_one]
  unfold D_op
  rw [if_neg (Nat.succ_ne_zero m), Nat.add_sub_cancel]
  exact foldl_mul_pow (_D_op N x) m

/-- Witness for C7 on the concrete grid `gridTwo` with `k = 2`. -/
theorem D_op_pow_witness : D_op 2 gridTwo 2 = (D_op 2 gridTwo 1) ^ 2 :=
  D_op_pow 2 gridTwo 2 gridTwo_distinct (by omega)

/-- C8: on every grid with distinct points, each row of the matrix built by
`_D_op` sums to zero, and the first-derivative matrix `D_op(x, 1)` applied to
any constant vector yields the zero vector. -/
theorem D_op_const_zero (N : ℕ) (x : Fin N → ℝ)
    (hx : ∀ i j : Fin N, i ≠ j → x i ≠ x j) :
    (∀ r : Fin N, ∑ c, _D_op N x r c = 0) ∧
    (∀ k : ℝ, (D_op N x 1).mulVec (fun _ => k) = 0) := by
  have hrow : ∀ r : Fin N, ∑ c, _D_op N x r c = 0 := by
    intro r
    have hsplit : ∑ c, _D_op N x r c
        = ∑ c, (D1pre N x r c - if r = c then (∑ j, D1pre N x r j) else 0) := by
      apply Finset.sum_congr rfl
      intro c _
      by_cases h : r = c
      · subst h; simp [_D_op]
      · simp [_D_op, h]
    rw [hsplit, Finset.sum_sub_distrib, Finset.sum_ite_eq]
    simp
  refine ⟨hrow, ?_⟩
  intro k
  funext r
  rw [D_op_one]
  show ∑ c, _D_op N x r c * k = (0 : Fin N → ℝ) r
  rw [← Finset.sum_mul, hrow r, zero_mul]
  simp

/-- Witness for C8 on the concrete grid `gridTwo`: the first row of `_D_op`
sums to zero. -/
theorem D_op_const_zero_witness : ∑ c, _D_op 2 gridTwo 0 c = 0 :=
  (D_op_const_zero 2 gridTwo gridTwo_distinct).1 0

/-! ## Theorems for claims C3 and C4 -/

/-- When every call raises a caught exception and the loop still has
`m ≥ 1` iterations for attempts `attempt, …, attempt + m - 1` ending exactly
at attempt `max_retries`, the loop raises the wrapping `RuntimeError` whose
cause is the exception of the final attempt, after `m` further calls. -/
theorem retryLoop_all_fail {T E : Type} (f : ℕ → Outcome T E)
    (caught : E → Bool) (max_retries : ℤ) (es : ℕ → E)
    (hf : ∀ i, f i = Outcome.err (es i)) (hc : ∀ i, caught (es i) = true) :
    ∀ (m attempt : ℕ), 1 ≤ m → (attempt : ℤ) + m = max_retries + 1 →
      retryLoop f caught max_retries m attempt
        = (RunResult.wrapped (es (attempt + m - 1)), attempt + m) := by
  intro m
  induction m with
  | zero => intro attempt h1 _; omega
  | succ m ih =>
      intro attempt _ hinv
      by_cases hm : m = 0
      · subst hm
        have ha : (attempt : ℤ) = max_retries := by push_cast at hinv; omega
        simp [retryLoop, hf attempt, hc attempt, ha]
      · have hm1 : 1 ≤ m := Nat.one_le_iff_ne_zero.mpr hm
        have hne : ¬((attempt : ℤ) = max_retries) := by push_cast at hinv; omega
        rw [show m + 1 = Nat.succ m from rfl]
        simp only [retryLoop, hf attempt, hc attempt, if_pos, hne, if_false,
          ite_true, ite_false]
        rw [ih (attempt + 1) hm1 (by push_cast at hinv ⊢; omega)]
        have e1 : attempt + 1 + m - 1 = attempt + (m + 1) - 1 := by omega
        have e2 : attempt + 1 + m = attempt + (m + 1) := by omega
        rw [e1, e2]

/-- C3: with `max_retries ≥ 0`, the wrapped function is called exactly
`max_retries + 1` times when every attempt raises a caught exception, and
exactly once when the first attempt succeeds, in which case the wrapper
returns that attempt's value unchanged. -/
theorem retry_call_counts {T E : Type} (f : ℕ → Outcome T E)
    (caught : E → Bool) (max_retries : ℤ) (h : 0 ≤ max_retries) :
    ((∀ i, ∃ e, f i = Outcome.err e ∧ caught e = true) →
        (retry f caught max_retries).2 = (max_retries + 1).toNat) ∧
    (∀ v, f 0 = Outcome.ok v →
        retry f caught max_retries = (RunResult.ok v, 1)) := by
  obtain ⟨n, rfl⟩ : ∃ n : ℕ, max_retries = (n : ℤ) :=
    ⟨max_retries.toNat, (Int.toNat_of_nonneg h).symm⟩
  have htn : ((n : ℤ) + 1).toNat = n + 1 := by omega
  constructor
  · intro hfail
    have hf : ∀ i, f i = Outcome.err (Classical.choose (hfail i)) :=
      fun i => (Classical.choose_spec (hfail i)).1
    have hc : ∀ i, caught (Classical.choose (hfail i)) = true :=
      fun i => (Classical.choose_spec (hfail i)).2
    unfold retry
    rw [htn, retryLoop_all_fail f caught (n : ℤ) _ hf hc (n + 1) 0 (by omega)
      (by push_cast; ring)]
    simp
  · intro v hv
    unfold retry
    rw [htn]
    simp [retryLoop, hv]

/-- Witness for C3: with `max_retries = 3` and every call failing with a
caught exception, the function is called 4 times. -/
theorem retry_call_counts_witness :
    (retry (fun _ => Outcome.err 7 : ℕ → Outcome ℕ ℕ) (fun _ => true) 3).2
      = 4 := by
  have h :=
    (retry_call_counts (fun _ => Outcome.err 7 : ℕ → Outcome ℕ ℕ)
      (fun _ => true) 3 (by omega)).1 (fun i => ⟨7, rfl, rfl⟩)
  have h4 : ((3 : ℤ) + 1).toNat = 4 := by decide
  rw [h4] at h
  exact h

/-- C4: with `max_retries ≥ 0`, when all `max_retries + 1` attempts raise
caught exceptions the wrapper raises the wrapping `RuntimeError` whose cause
is the exception raised by the final attempt (attempt index `max_retries`),
after exactly `max_retries + 1` calls. -/
theorem retry_wrapped_cause {T E : Type} (f : ℕ → Outcome T E)
    (caught : E → Bool) (max_retries : ℤ) (es : ℕ → E) (h : 0 ≤ max_retries)
    (hf : ∀ i, f i = Outcome.err (es i)) (hc : ∀ i, caught (es i) = true) :
    retry f caught max_retries
      = (RunResult.wrapped (es max_retries.toNat), max_retries.toNat + 1) := by
  obtain ⟨n, rfl⟩ : ∃ n : ℕ, max_retries = (n : ℤ) :=
    ⟨max_retries.toNat, (Int.toNat_of_nonneg h).symm⟩
  have htn : ((n : ℤ) + 1).toNat = n + 1 := by omega
  unfold retry
  rw [htn, retryLoop_all_fail f caught (n : ℤ) es hf hc (n + 1) 0 (by omega)
    (by push_cast; ring)]
  simp

/-- Witness for C4: with `max_retries = 2` and every attempt raising the
caught exception 9, the wrapper wraps cause 9 after 3 calls. -/
theorem retry_wrapped_cause_witness :
    retry (fun _ => Outcome.err 9 : ℕ → Outcome ℕ ℕ) (fun _ => true) 2
      = (RunResult.wrapped 9, 3) := by
  have h :=
    retry_wrapped_cause (fun _ => Outcome.err 9 : ℕ → Outcome ℕ ℕ)
      (fun _ => true) 2 (fun _ => 9) (by omega) (fun i => rfl) (fun i => rfl)
  simpa using h

/-! ## Theorem for claim C2 -/

/-- C2, failing-input evaluation: calling a dispatch object holding one
single-parameter implementation with the two arguments `(1, 2)` makes
`Signature.bind_partial` raise a plain `TypeError`, which the dispatcher's
`except TypeCheckError` does not catch; the call therefore raises that
`TypeError` instead of the documented aggregated `NotImplementedError`. -/
theorem md_call_bind_error_escapes :
    md_call [implOneParam] true [1, 2]
      = CallResult.typeErr "too many positional arguments" := by
  rfl

/-! ## Theorems for claim C9 -/

/-- C9 counterexample: in the registry `[implA, implB, implC]` (oldest
first), `implA` and `implB` both match the call `(0)`, so the claim says the
more recently registered `implB` (body value 20) is invoked; but the scan
first meets `implC`, whose binding failure raises a plain `TypeError` that
aborts the dispatch, and `implB` is never invoked. -/
theorem dispatch_order_counterexample :
    md_call [implA, implB, implC] true [0]
      = CallResult.typeErr "too many positional arguments" ∧
    ((md_call [implA, implB, implC] true [0] == CallResult.value 20)
      = false) := by
  exact ⟨rfl, rfl⟩

/-- Scanning a reversed registry whose prefix consists of implementations
that all fail with a `TypeCheckError` reaches the first passing
implementation and selects it. -/
theorem dispatchGo_skips (typecheck : Bool) (fargs : List ℕ) (total : ℕ)
    (impl : Impl) (rest : List Impl)
    (hpass : check_call impl.params fargs [] typecheck true = Except.ok ()) :
    ∀ (pre : List Impl) (n : ℕ) (failures : List String),
      (∀ y ∈ pre, ∃ m, check_call y.params fargs [] typecheck true
          = Except.error (CheckErr.typeCheckErr m)) →
      ∃ fs, dispatchGo typecheck fargs total (pre ++ impl :: rest) n failures
          = DispatchResult.found impl fs := by
  intro pre
  induction pre with
  | nil =>
      intro n failures _
      exact ⟨failures, by simp [dispatchGo, hpass]⟩
  | cons y pre ih =>
      intro n failures hall
      obtain ⟨m, hm⟩ := hall y (List.mem_cons_self y pre)
      have hrest : ∀ z ∈ pre, ∃ m, check_call z.params fargs [] typecheck true
          = Except.error (CheckErr.typeCheckErr m) :=
        fun z hz => hall z (List.mem_cons_of_mem y hz)
      rw [List.cons_append]
      simp only [dispatchGo, hm]
      exact ih (n + 1)
        (failures ++ ["Implementation " ++ toString (total - n) ++ ": " ++ m])
        hrest

/-- C9 as amended: when the implementation at registry index `i` passes the
signature-and-type check and every more recently registered implementation
(higher index) fails it with a `TypeCheckError` (not a binding `TypeError`),
the dispatcher selects the implementation at index `i` and the call runs its
body; implementations registered earlier than `i` are never invoked. -/
theorem dispatch_order_selects_most_recent (registry : List Impl)
    (typecheck : Bool) (fargs : List ℕ) (i : ℕ) (impl : Impl)
    (hne : fargs ≠ [])
    (hi : registry[i]? = some impl)
    (hpass : check_call impl.params fargs [] typecheck true = Except.ok ())
    (hafter : ∀ y ∈ registry.drop (i + 1), ∃ m,
        check_call y.params fargs [] typecheck true
          = Except.error (CheckErr.typeCheckErr m)) :
    (∃ fs, dispatcher registry typecheck fargs = DispatchResult.found impl fs)
    ∧ md_call registry typecheck fargs = CallResult.value (impl.body fargs) := by
  have ht : registry.take (i + 1) = registry.take i ++ [impl] := by
    rw [List.take_succ, hi]
    rfl
  have hdecomp : registry.reverse
      = (registry.drop (i + 1)).reverse ++ impl :: (registry.take i).reverse := by
    conv_lhs => rw [← List.take_append_drop (i + 1) registry]
    rw [List.reverse_append, ht, List.reverse_append]
    rfl
  have hall : ∀ y ∈ (registry.drop (i + 1)).reverse, ∃ m,
      check_call y.params fargs [] typecheck true
        = Except.error (CheckErr.typeCheckErr m) :=
    fun y hy => hafter y (List.mem_reverse.mp hy)
  obtain ⟨fs, hfs⟩ := dispatchGo_skips typecheck fargs registry.length impl
    ((registry.take i).reverse) hpass ((registry.drop (i + 1)).reverse) 0
    ["No implementation found for the supplied arguments"] hall
  have hdisp : dispatcher registry typecheck fargs
      = DispatchResult.found impl fs := by
    unfold dispatcher
    rw [hdecomp]
    exact hfs
  refine ⟨⟨fs, hdisp⟩, ?_⟩
  obtain ⟨a, l, rfl⟩ : ∃ a l, fargs = a :: l := by
    cases fargs with
    | nil => exact absurd rfl hne
    | cons a l => exact ⟨a, l, rfl⟩
  simp [md_call, hdisp]

/-- Witness for the amended C9: with registry `[implA, implB]` and the call
`(0)` matching both, the more recently registered `implB` is invoked. -/
theorem dispatch_order_selects_most_recent_witness :
    md_call [implA, implB] true [0] = CallResult.value 20 := by
  have h := (dispatch_order_selects_most_recent [implA, implB] true [0] 1 implB
    (by simp) rfl rfl (by simp)).2
  simpa [implB] using h

/-! ## Theorems for claim C5 -/

/-- C5: when the call binds (no more arguments or explicit types than
parameters) and the i-th supplied argument fails `check_type` against its
effective expected type with message `m`, the type-guarded call raises the
aggregated `TypeCheckError` — a `TypeError` — whose message contains the
per-argument line `m` naming the parameter and the expected type(s), and the
result is the same for every body: the wrapped function is never invoked. -/
theorem typeguard_mismatch_blocks (params : List Param) (targs : List TypeAnn)
    (fargs : List ℕ) (i a : ℕ) (p : Param) (m : String)
    (hflen : fargs.length ≤ params.length)
    (htlen : targs.length ≤ params.length)
    (ha : fargs.get? i = some a)
    (hp : params.get? i = some p)
    (hfail : check_type a (effExpected params targs true i) p.name
        = Except.error m) :
    m ∈ checkFailures params fargs targs true ∧
    ((∃ e, effExpected params targs true i = TypeAnn.single e ∧
        m = "Argument " ++ p.name ++ " has type " ++ showTy a ++ " and not "
          ++ showPyTy e) ∨
     (∃ es, effExpected params targs true i = TypeAnn.multi es ∧
        m = "Type " ++ showTy a ++ " of argument " ++ p.name ++ " is not in "
          ++ showPyTyList es)) ∧
    (∀ body, typeguard params body targs fargs
        = Except.error (CheckErr.typeCheckErr (String.intercalate "\n"
            ("Function arguments did not match expected types"
              :: checkFailures params fargs targs true)))) := by
  have hlt : i < fargs.length := by
    by_contra hcon
    rw [List.get?_eq_none.mpr (Nat.le_of_not_lt hcon)] at ha
    cases ha
  have hmem : m ∈ checkFailures params fargs targs true := by
    unfold checkFailures
    rw [List.mem_filterMap]
    refine ⟨i, List.mem_range.mpr hlt, ?_⟩
    simp only [ha, hp, hfail]
  have hdesc : (∃ e, effExpected params targs true i = TypeAnn.single e ∧
      m = "Argument " ++ p.name ++ " has type " ++ showTy a ++ " and not "
        ++ showPyTy e) ∨
      (∃ es, effExpected params targs true i = TypeAnn.multi es ∧
      m = "Type " ++ showTy a ++ " of argument " ++ p.name ++ " is not in "
        ++ showPyTyList es) := by
    rcases hE : effExpected params targs true i with e | es
    · rw [hE] at hfail
      cases hpm : pymatches e a with
      | true => simp [check_type, hpm] at hfail
      | false =>
          simp [check_type, hpm] at hfail
          exact Or.inl ⟨e, rfl, hfail.symm⟩
    · rw [hE] at hfail
      cases hpm : es.any (fun e => pymatches e a) with
      | true => simp [check_type, hpm] at hfail
      | false =>
          simp [check_type, hpm] at hfail
          exact Or.inr ⟨es, rfl, hfail.symm⟩
  have hnonempty : checkFailures params fargs targs true ≠ [] :=
    List.ne_nil_of_mem hmem
  have hcc : check_call params fargs targs true true
      = Except.error (CheckErr.typeCheckErr (String.intercalate "\n"
          ("Function arguments did not match expected types"
            :: checkFailures params fargs targs true))) := by
    simp only [check_call]
    rw [if_neg (by omega : ¬ params.length < fargs.length)]
    rw [if_neg (by simp : ¬ (true = false))]
    rw [if_neg (by omega : ¬ params.length < targs.length)]
    rw [if_neg (by simpa [List.isEmpty_iff] using hnonempty)]
  exact ⟨hmem, hdesc, fun body => by simp [typeguard, hcc]⟩

/-- Witness for C5: a parameter expecting class 0 called with an argument of
class 1 makes the guarded call raise the aggregated error. -/
theorem typeguard_mismatch_blocks_witness :
    typeguard [⟨"x", TypeAnn.single (PyTy.cls 0)⟩] (fun _ => 5) [] [1]
      = Except.error (CheckErr.typeCheckErr (String.intercalate "\n"
          ("Function arguments did not match expected types"
            :: checkFailures [⟨"x", TypeAnn.single (PyTy.cls 0)⟩] [1] []
                true))) :=
  (typeguard_mismatch_blocks [⟨"x", TypeAnn.single (PyTy.cls 0)⟩] [] [1] 0 1
    ⟨"x", TypeAnn.single (PyTy.cls 0)⟩ _ (by decide) (by decide) rfl rfl
    rfl).2.2 (fun _ => 5)

/-! ## Theorems for claim C10 -/

/-- C10: `check_type` always succeeds when the expected type is `Any` or the
empty annotation; on a tuple or union it succeeds exactly when some listed
entry matches, and when every listed entry is a class, exactly when the
argument's runtime class is one of the listed classes; consequently a
type-guarded parameter with no explicit type and no annotation accepts an
argument of every type. -/
theorem check_type_any_empty_exact (t : ℕ) (label : String) (es : List PyTy) :
    check_type t (TypeAnn.single PyTy.any) label = Except.ok () ∧
    check_type t (TypeAnn.single PyTy.empty) label = Except.ok () ∧
    (check_type t (TypeAnn.multi es) label = Except.ok ()
      ↔ ∃ e ∈ es, pymatches e t = true) ∧
    ((∀ e ∈ es, ∃ u, e = PyTy.cls u) →
      (check_type t (TypeAnn.multi es) label = Except.ok ()
        ↔ PyTy.cls t ∈ es)) ∧
    (∀ (nm : String) (body : List ℕ → ℕ) (a : ℕ),
      typeguard [⟨nm, TypeAnn.single PyTy.empty⟩] body [] [a]
        = Except.ok (body [a])) := by
  have hiff : check_type t (TypeAnn.multi es) label = Except.ok ()
      ↔ ∃ e ∈ es, pymatches e t = true := by
    rw [← List.any_eq_true]
    cases h : es.any (fun e => pymatches e t) with
    | true => simp [check_type, h]
    | false => simp [check_type, h]
  refine ⟨by simp [check_type, pymatches], by simp [check_type, pymatches],
    hiff, ?_, ?_⟩
  · intro hcls
    constructor
    · intro hok
      obtain ⟨e, he, hm⟩ := hiff.mp hok
      obtain ⟨u, rfl⟩ := hcls e he
      have hu : u = t := by simpa [pymatches] using hm
      exact hu ▸ he
    · intro hmemt
      exact hiff.mpr ⟨PyTy.cls t, hmemt, by simp [pymatches]⟩
  · intro nm body a
    rfl

/-- Witness for C10: the exact-runtime-type reading at a concrete list of
expected classes. -/
theorem check_type_any_empty_exact_witness :
    check_type 3 (TypeAnn.multi [PyTy.cls 3]) "x" = Except.ok ()
      ↔ PyTy.cls 3 ∈ [PyTy.cls 3] :=
  (check_type_any_empty_exact 3 "x" [PyTy.cls 3]).2.2.2.1
    (by intro e he; exact ⟨3, by simpa using he⟩)

end Toolbox
